import Mathlib

/-!
Shallow embedding of `sensor::PointcloudProcessor`
(src/ros2_ouster/include/ros2_ouster/processors/pointcloud_processor.hpp)
from the ros2_ouster_drivers repository, together with proofs of the
specification claims about it.

Modelling conventions:
* Point coordinates are integers (the claims under study are about control
  flow, publication counts, set membership of points in boxes, and buffer
  sizes, none of which depend on floating-point rounding).
* The external collaborators (the full-rotation accumulator and the tf2
  buffer) are modelled as an environment record `Env` read by `process`.
* The lifecycle publishers of rclcpp_lifecycle are modelled by
  `LifecyclePublisher`: a publish call is always *received*; it is
  *emitted* only while the publisher is activated (publishing on an
  inactive lifecycle publisher is a silent no-op, per rclcpp_lifecycle).
* `ros2_ouster::toCloud`, `ros2_ouster::toMsg` and `ouster::make_xyz_lut`
  are code of this repository that is not under src/ (they live in
  conversions.hpp and the ouster client); they are modelled from the
  spec, as marked in their doc comments.
-/

namespace RosOuster

/-- A 3-vector of integer components (used for LUT directions/offsets and
box corners, standing in for Eigen vectors). -/
structure Vec3 where
  x : Int
  y : Int
  z : Int
deriving DecidableEq, Repr

/-- A point of a point cloud (`ouster_ros::Point`, restricted to the
spatial fields the claims are about). -/
structure Point where
  x : Int
  y : Int
  z : Int
deriving DecidableEq, Repr

/-- The designated invalid-point marker written for zero-range cells. -/
def invalidPoint : Point := ⟨0, 0, 0⟩

/-- `pcl::PointCloud<ouster_ros::Point>` (the `Cloud` alias of the header):
a width/height pair and the flat point buffer. -/
structure Cloud where
  width : Nat
  height : Nat
  points : List Point
deriving DecidableEq, Repr

/-- The pcl `PointCloud(width, height)` constructor used by
`std::make_unique<Cloud>(_width, _height)`: allocates `width * height`
default points. -/
def Cloud.alloc (w h : Nat) : Cloud :=
  { width := w, height := h, points := List.replicate (w * h) invalidPoint }

/-- Modelled from the spec: `ouster::XYZLut` — "a fixed-size array of
`height × width` unit direction vectors plus per-beam offset constants".
The per-cell direction and offset are kept as functions of (row, column);
construction/calibration of the table is out of scope. -/
structure GeometryLUT where
  height : Nat
  width : Nat
  dir : Nat → Nat → Vec3
  offset : Nat → Nat → Vec3

/-- The raw scan of one full rotation (`ouster::LidarScan` view): a dense
`h × w` grid of range magnitudes, indexed by (row, column). -/
structure RawScan where
  h : Nat
  w : Nat
  range : Nat → Nat → Nat

/-- The fatal configuration fault of the build step. -/
inductive ConfigFault
  | dimMismatch
deriving DecidableEq, Repr

/-- Sensor metadata (`ouster::sensor::sensor_info`, restricted to the
fields the constructor reads; the calibration data feeding the LUT is
carried opaquely as the per-cell direction/offset functions). -/
structure SensorInfo where
  pixels_per_column : Nat
  columns_per_frame : Nat
  beamDir : Nat → Nat → Vec3
  beamOffset : Nat → Nat → Vec3

/-- Modelled from the spec: `ouster::make_xyz_lut` (ouster client, not
under src/) — builds the geometric lookup table, whose dimensions are the
sensor grid dimensions, from the sensor calibration metadata. -/
def make_xyz_lut (mdata : SensorInfo) : GeometryLUT :=
  { height := mdata.pixels_per_column
    width := mdata.columns_per_frame
    dir := mdata.beamDir
    offset := mdata.beamOffset }

/-- The Cartesian point of one cell: for a non-zero range the point is
`lut[r,c].direction * range + lut[r,c].offset`; a zero-range cell maps to
the designated invalid point. -/
def cellPoint (lut : GeometryLUT) (scan : RawScan) (r c : Nat) : Point :=
  if scan.range r c ≠ 0 then
    { x := (lut.dir r c).x * (scan.range r c : Int) + (lut.offset r c).x
      y := (lut.dir r c).y * (scan.range r c : Int) + (lut.offset r c).y
      z := (lut.dir r c).z * (scan.range r c : Int) + (lut.offset r c).z }
  else invalidPoint

/-- The full `h × w` point buffer of a build, in row-major order,
preserving grid shape (invalid cells are written, not omitted). -/
def buildPoints (lut : GeometryLUT) (scan : RawScan) : List Point :=
  (List.range scan.h).flatMap fun r => (List.range scan.w).map (cellPoint lut scan r)

/-- The cloud produced by a successful build. -/
def buildCloud (lut : GeometryLUT) (scan : RawScan) : Cloud :=
  { width := scan.w, height := scan.h, points := buildPoints lut scan }

/-- Modelled from the spec: `ros2_ouster::toCloud` (conversions.hpp, not
under src/) — converts a ready scan into the organized sensor-frame cloud
through the lookup table, writing the reusable destination buffer. "For
every cell (r, c): if the cell's range is non-zero (a valid return), the
output point = lut[r,c].direction * range + lut[r,c].offset;
invalid/zero-range cells are written as a designated invalid point (not
omitted)". "Fails only if scan dimensions disagree with the LUT
dimensions (configuration error, fatal)"; the failure propagates as an
uncaught exception, modelled by `Except.error`. -/
def toCloud (lut : GeometryLUT) (scan_ts : Nat) (scan : RawScan) :
    Except ConfigFault Cloud :=
  if scan.h = lut.height ∧ scan.w = lut.width then
    .ok (buildCloud lut scan)
  else
    .error .dimMismatch

/-- A rigid transform: rotation rows `r1 r2 r3` and translation `t`
(`geometry_msgs` TransformStamped, restricted to its rigid-motion data). -/
structure Transform where
  r1 : Vec3
  r2 : Vec3
  r3 : Vec3
  t : Vec3
deriving DecidableEq, Repr

/-- Apply a rigid transform to a point: rotate, then translate. -/
def Transform.apply (tr : Transform) (p : Point) : Point :=
  { x := tr.r1.x * p.x + tr.r1.y * p.y + tr.r1.z * p.z + tr.t.x
    y := tr.r2.x * p.x + tr.r2.y * p.y + tr.r2.z * p.z + tr.t.y
    z := tr.r3.x * p.x + tr.r3.y * p.y + tr.r3.z * p.z + tr.t.z }

/-- An outgoing `sensor_msgs::msg::PointCloud2` message, restricted to the
observable fields: frame id, stamp, grid shape and point data. -/
structure Msg where
  frame : String
  stamp : Nat
  width : Nat
  height : Nat
  points : List Point
deriving DecidableEq, Repr

/-- Modelled from the spec: `ros2_ouster::toMsg` (conversions.hpp, not
under src/) — converts the built cloud into a message in the sensor frame,
stamped with the batch timestamp (the override timestamp takes precedence
when non-zero). -/
def toMsg (cloud : Cloud) (timestamp : Nat) (frame : String)
    (override_ts : Nat) : Msg :=
  { frame := frame
    stamp := if override_ts = 0 then timestamp else override_ts
    width := cloud.width
    height := cloud.height
    points := cloud.points }

/-- The time argument of a tf2 lookup: `tf2::TimePointZero` requests the
latest available transform; `atTime t` requests the transform valid at
instant `t`. -/
inductive TfTime
  | zero
  | atTime (t : Nat)
deriving DecidableEq, Repr

/-- `pcl_ros::transformPointCloud(target, transform, in, out)`: every
point is rotated and translated by the given transform and the message is
re-stamped into the target frame. -/
def transformPointCloud (target : String) (tr : Transform) (msg : Msg) : Msg :=
  { msg with frame := target, points := msg.points.map tr.apply }

/-- An `rclcpp_lifecycle` publisher: `received` records every publish call
made on the channel; `emitted` records the messages actually sent, which
happens only while the publisher is activated — a publish call while
deactivated is a silent no-op, not an error. -/
structure LifecyclePublisher where
  activated : Bool
  received : List Msg
  emitted : List Msg
deriving DecidableEq, Repr

/-- A freshly created lifecycle publisher: deactivated, nothing sent. -/
def LifecyclePublisher.new : LifecyclePublisher :=
  { activated := false, received := [], emitted := [] }

/-- `publish(msg)` on a lifecycle publisher. -/
def LifecyclePublisher.publish (pub : LifecyclePublisher) (m : Msg) :
    LifecyclePublisher :=
  { pub with
    received := pub.received ++ [m]
    emitted := if pub.activated then pub.emitted ++ [m] else pub.emitted }

/-- `on_activate()` of a lifecycle publisher. -/
def LifecyclePublisher.doActivate (pub : LifecyclePublisher) :
    LifecyclePublisher :=
  { pub with activated := true }

/-- `on_deactivate()` of a lifecycle publisher. -/
def LifecyclePublisher.doDeactivate (pub : LifecyclePublisher) :
    LifecyclePublisher :=
  { pub with activated := false }

/-- The external collaborators read by one `process` invocation: the
`FullRotationAccumulator` accessors and the tf2 buffer's
`lookupTransform(target, source, time)`. -/
structure Env where
  isBatchReady : Bool
  lidarScan : RawScan
  timestamp : Nat
  packetsAccumulated : Nat
  lookupTransform : String → String → TfTime → Except String Transform

/-- The state of a `sensor::PointcloudProcessor`. -/
structure PointcloudProcessor where
  cloud : Cloud
  pub : LifecyclePublisher
  pub_base_link : LifecyclePublisher
  xyz_lut : GeometryLUT
  frame : String
  height : Nat
  width : Nat

/-- The `PointcloudProcessor` constructor: records the grid dimensions,
builds the LUT, allocates the destination cloud buffer once with
`Cloud(_width, _height)` and creates the two (deactivated) publishers. -/
def PointcloudProcessor.init (mdata : SensorInfo) (frame : String) :
    PointcloudProcessor :=
  { cloud := Cloud.alloc mdata.columns_per_frame mdata.pixels_per_column
    pub := .new
    pub_base_link := .new
    xyz_lut := make_xyz_lut mdata
    frame := frame
    height := mdata.pixels_per_column
    width := mdata.columns_per_frame }

/-- `PointcloudProcessor::process(data, override_ts)`. Returns
`Except.error` exactly when the (uncaught) configuration fault of the
build step propagates; otherwise `.ok (state, returnValue)`. -/
def process (s : PointcloudProcessor) (env : Env) (data : List Nat)
    (override_ts : Nat) : Except ConfigFault (PointcloudProcessor × Bool) :=
  if !env.isBatchReady then
    .ok (s, true)
  else
    match toCloud s.xyz_lut env.timestamp env.lidarScan with
    | .error e => .error e
    | .ok cloud =>
      let ros_cloud := toMsg cloud env.timestamp s.frame override_ts
      let s1 := { s with cloud := cloud, pub := s.pub.publish ros_cloud }
      match env.lookupTransform "base_link" s.frame TfTime.zero with
      | .error _ => .ok (s1, true)
      | .ok transform =>
        let ros_cloud2 := transformPointCloud "base_link" transform ros_cloud
        .ok ({ s1 with pub_base_link := s1.pub_base_link.publish ros_cloud2 },
             true)

/-- `PointcloudProcessor::onActivate()`: activates both publishers. -/
def onActivate (s : PointcloudProcessor) : PointcloudProcessor :=
  { s with pub := s.pub.doActivate
           pub_base_link := s.pub_base_link.doActivate }

/-- `PointcloudProcessor::onDeactivate()`: deactivates both publishers. -/
def onDeactivate (s : PointcloudProcessor) : PointcloudProcessor :=
  { s with pub := s.pub.doDeactivate
           pub_base_link := s.pub_base_link.doDeactivate }

/-- Membership of a point in the axis-aligned box `[mn, mx]`
(pcl `CropBox` membership: inclusive on all six faces). -/
def insideBox (mn mx : Vec3) (p : Point) : Bool :=
  decide (mn.x ≤ p.x) && decide (p.x ≤ mx.x) &&
  decide (mn.y ≤ p.y) && decide (p.y ≤ mx.y) &&
  decide (mn.z ≤ p.z) && decide (p.z ≤ mx.z)

/-- `pcl::CropBox::filter(indices)`: the indices (counting from `i0`) of
the input points lying inside the box. -/
def cropBoxIndices (mn mx : Vec3) : List Point → Nat → List Nat
  | [], _ => []
  | p :: ps, i =>
    if insideBox mn mx p then i :: cropBoxIndices mn mx ps (i + 1)
    else cropBoxIndices mn mx ps (i + 1)

/-- `pcl::ExtractIndices` with `setNegative(true)`: keeps exactly the
input points (counting from `i0`) whose index is not in `idx`. -/
def extractNegative : List Point → Nat → List Nat → List Point
  | [], _, _ => []
  | p :: ps, i, idx =>
    if idx.contains i then extractNegative ps (i + 1) idx
    else p :: extractNegative ps (i + 1) idx

/-- `PointcloudProcessor::cropBox(cloud, min, max)`: runs `CropBox` to
collect the indices inside the box, removes them with a negative
`ExtractIndices`, and compacts the result (`height = 1`,
`width = points.size()`). -/
def cropBox (cloud : Cloud) (mn mx : Vec3) : Cloud :=
  let indices := cropBoxIndices mn mx cloud.points 0
  let pts := extractNegative cloud.points 0 indices
  { width := pts.length, height := 1, points := pts }

/-- Lifecycle / processing events driving a processor instance. -/
inductive Event
  | activate
  | deactivate
  | tick (env : Env) (data : List Nat) (override_ts : Nat)

/-- One event step. A `tick` runs `process`; if the configuration fault is
thrown the processor state is left as it was (the fault propagates before
any publisher is touched). -/
def step (s : PointcloudProcessor) : Event → PointcloudProcessor
  | .activate => onActivate s
  | .deactivate => onDeactivate s
  | .tick env data override_ts =>
    match process s env data override_ts with
    | .ok (s', _) => s'
    | .error _ => s

/-- Run a sequence of events from a state. -/
def run (s : PointcloudProcessor) (evs : List Event) : PointcloudProcessor :=
  evs.foldl step s

/-- A tick event from its inputs (environment, packet data, override
timestamp). -/
def tickEvent (t : Env × List Nat × Nat) : Event :=
  Event.tick t.1 t.2.1 t.2.2

/-- The sensor-frame message published on the primary channel for a ready
batch. -/
def primaryMsg (s : PointcloudProcessor) (env : Env) (override_ts : Nat) : Msg :=
  toMsg (buildCloud s.xyz_lut env.lidarScan) env.timestamp s.frame override_ts

/-- The processor state after the build and the primary publish of a ready
batch (the state at the point where the transform lookup is attempted). -/
def afterPrimary (s : PointcloudProcessor) (env : Env) (override_ts : Nat) :
    PointcloudProcessor :=
  { s with cloud := buildCloud s.xyz_lut env.lidarScan
           pub := s.pub.publish (primaryMsg s env override_ts) }

/-- The processor state after a ready batch whose transform lookup
returned `tr`: the primary publish followed by the secondary publish of
the re-expressed cloud. -/
def afterSecondary (s : PointcloudProcessor) (env : Env) (override_ts : Nat)
    (tr : Transform) : PointcloudProcessor :=
  { afterPrimary s env override_ts with
    pub_base_link := s.pub_base_link.publish
      (transformPointCloud "base_link" tr (primaryMsg s env override_ts)) }

/-- The processor state after processing one ready batch, as a function of
the transform lookup's result at `tf2::TimePointZero`. -/
def tickResult (s : PointcloudProcessor) (env : Env) (override_ts : Nat) :
    PointcloudProcessor :=
  match env.lookupTransform "base_link" s.frame TfTime.zero with
  | .ok tr => afterSecondary s env override_ts tr
  | .error _ => afterPrimary s env override_ts

/-! ### Characterization lemmas for `toCloud` and `process` -/

theorem toCloud_ok {lut : GeometryLUT} {scan : RawScan} (ts : Nat)
    (hh : scan.h = lut.height) (hw : scan.w = lut.width) :
    toCloud lut ts scan = .ok (buildCloud lut scan) := by
  simp [toCloud, hh, hw]

theorem toCloud_err {lut : GeometryLUT} {scan : RawScan} (ts : Nat)
    (h : ¬(scan.h = lut.height ∧ scan.w = lut.width)) :
    toCloud lut ts scan = .error .dimMismatch := by
  simp only [toCloud, if_neg h]

theorem toCloud_ok_inv {lut : GeometryLUT} {scan : RawScan} {ts : Nat}
    {c : Cloud} (h : toCloud lut ts scan = .ok c) :
    scan.h = lut.height ∧ scan.w = lut.width ∧ c = buildCloud lut scan := by
  unfold toCloud at h
  split at h
  · next hd => exact ⟨hd.1, hd.2, (Except.ok.injEq _ _).mp h |>.symm⟩
  · exact absurd h (by simp)

theorem process_not_ready {s : PointcloudProcessor} {env : Env}
    {d : List Nat} {o : Nat} (h : env.isBatchReady = false) :
    process s env d o = .ok (s, true) := by
  simp [process, h]

theorem process_mismatch {s : PointcloudProcessor} {env : Env}
    {d : List Nat} {o : Nat} (hr : env.isBatchReady = true)
    (hd : ¬(env.lidarScan.h = s.xyz_lut.height ∧
            env.lidarScan.w = s.xyz_lut.width)) :
    process s env d o = .error .dimMismatch := by
  simp [process, hr, toCloud_err _ hd]

theorem process_ready_err {s : PointcloudProcessor} {env : Env}
    {d : List Nat} {o : Nat} {err : String} (hr : env.isBatchReady = true)
    (hh : env.lidarScan.h = s.xyz_lut.height)
    (hw : env.lidarScan.w = s.xyz_lut.width)
    (hl : env.lookupTransform "base_link" s.frame TfTime.zero = .error err) :
    process s env d o = .ok (afterPrimary s env o, true) := by
  simp [process, hr, toCloud_ok _ hh hw, hl, afterPrimary, primaryMsg]

theorem process_ready_ok {s : PointcloudProcessor} {env : Env}
    {d : List Nat} {o : Nat} {tr : Transform} (hr : env.isBatchReady = true)
    (hh : env.lidarScan.h = s.xyz_lut.height)
    (hw : env.lidarScan.w = s.xyz_lut.width)
    (hl : env.lookupTransform "base_link" s.frame TfTime.zero = .ok tr) :
    process s env d o = .ok (afterSecondary s env o tr, true) := by
  simp [process, hr, toCloud_ok _ hh hw, hl, afterSecondary, afterPrimary,
    primaryMsg]

theorem process_ready {s : PointcloudProcessor} {env : Env}
    {d : List Nat} {o : Nat} (hr : env.isBatchReady = true)
    (hh : env.lidarScan.h = s.xyz_lut.height)
    (hw : env.lidarScan.w = s.xyz_lut.width) :
    process s env d o = .ok (tickResult s env o, true) := by
  unfold tickResult
  cases hl : env.lookupTransform "base_link" s.frame TfTime.zero with
  | ok tr => exact process_ready_ok hr hh hw hl
  | error err => exact process_ready_err hr hh hw hl

/-- Fields of the processor state that no `process` invocation changes. -/
theorem process_preserved {s : PointcloudProcessor} {env : Env}
    {d : List Nat} {o : Nat} {s' : PointcloudProcessor} {b : Bool}
    (h : process s env d o = .ok (s', b)) :
    s'.width = s.width ∧ s'.height = s.height ∧ s'.xyz_lut = s.xyz_lut ∧
    s'.frame = s.frame ∧ s'.pub.activated = s.pub.activated ∧
    s'.pub_base_link.activated = s.pub_base_link.activated := by
  cases hr : env.isBatchReady with
  | false =>
    rw [process_not_ready hr] at h
    obtain ⟨rfl, rfl⟩ : s = s' ∧ true = b := by
      simpa using h
    exact ⟨rfl, rfl, rfl, rfl, rfl, rfl⟩
  | true =>
    by_cases hd : env.lidarScan.h = s.xyz_lut.height ∧
        env.lidarScan.w = s.xyz_lut.width
    · rw [process_ready hr hd.1 hd.2] at h
      obtain ⟨rfl, rfl⟩ : tickResult s env o = s' ∧ true = b := by
        simpa using h
      unfold tickResult
      cases env.lookupTransform "base_link" s.frame TfTime.zero with
      | ok tr => exact ⟨rfl, rfl, rfl, rfl, rfl, rfl⟩
      | error err => exact ⟨rfl, rfl, rfl, rfl, rfl, rfl⟩
    · rw [process_mismatch hr hd] at h
      exact absurd h (by simp)

/-- While both publishers are deactivated, a `process` invocation emits
nothing on either channel. -/
theorem process_emitted_of_inactive {s : PointcloudProcessor} {env : Env}
    {d : List Nat} {o : Nat} {s' : PointcloudProcessor} {b : Bool}
    (h1 : s.pub.activated = false) (h2 : s.pub_base_link.activated = false)
    (h : process s env d o = .ok (s', b)) :
    s'.pub.emitted = s.pub.emitted ∧
    s'.pub_base_link.emitted = s.pub_base_link.emitted := by
  cases hr : env.isBatchReady with
  | false =>
    rw [process_not_ready hr] at h
    obtain ⟨rfl, rfl⟩ : s = s' ∧ true = b := by simpa using h
    exact ⟨rfl, rfl⟩
  | true =>
    by_cases hd : env.lidarScan.h = s.xyz_lut.height ∧
        env.lidarScan.w = s.xyz_lut.width
    · rw [process_ready hr hd.1 hd.2] at h
      obtain ⟨rfl, rfl⟩ : tickResult s env o = s' ∧ true = b := by
        simpa using h
      unfold tickResult
      cases env.lookupTransform "base_link" s.frame TfTime.zero with
      | ok tr =>
        exact ⟨by simp [afterSecondary, afterPrimary,
            LifecyclePublisher.publish, h1],
          by simp [afterSecondary, afterPrimary,
            LifecyclePublisher.publish, h2]⟩
      | error err =>
        exact ⟨by simp [afterPrimary, LifecyclePublisher.publish, h1], rfl⟩
    · rw [process_mismatch hr hd] at h
      exact absurd h (by simp)

/-- Processing any number of ticks while both publishers are deactivated
emits nothing and leaves both publishers deactivated. -/
theorem runTicks_emitted_of_inactive :
    ∀ (ticks : List (Env × List Nat × Nat)) (s : PointcloudProcessor),
      s.pub.activated = false → s.pub_base_link.activated = false →
      (run s (ticks.map tickEvent)).pub.emitted = s.pub.emitted ∧
      (run s (ticks.map tickEvent)).pub_base_link.emitted =
        s.pub_base_link.emitted := by
  intro ticks
  induction ticks with
  | nil => intro s h1 h2; exact ⟨rfl, rfl⟩
  | cons t ts ih =>
    intro s h1 h2
    show (run (step s (tickEvent t)) (ts.map tickEvent)).pub.emitted =
        s.pub.emitted ∧
      (run (step s (tickEvent t)) (ts.map tickEvent)).pub_base_link.emitted =
        s.pub_base_link.emitted
    cases hp : process s t.1 t.2.1 t.2.2 with
    | ok r =>
      obtain ⟨s', b⟩ := r
      have hpre := process_preserved hp
      have hem := process_emitted_of_inactive h1 h2 hp
      have hstep : step s (tickEvent t) = s' := by
        simp [step, tickEvent, hp]
      rw [hstep]
      have := ih s' (hpre.2.2.2.2.1.trans h1) (hpre.2.2.2.2.2.trans h2)
      exact ⟨this.1.trans hem.1, this.2.trans hem.2⟩
    | error e =>
      have hstep : step s (tickEvent t) = s := by
        simp [step, tickEvent, hp]
      rw [hstep]
      exact ih s h1 h2

/-- The two publishers' activation states agree in every state reachable
by a sequence of events. -/
theorem run_activated_eq :
    ∀ (evs : List Event) (s : PointcloudProcessor),
      s.pub.activated = s.pub_base_link.activated →
      (run s evs).pub.activated = (run s evs).pub_base_link.activated := by
  intro evs
  induction evs with
  | nil => intro s h; exact h
  | cons e es ih =>
    intro s h
    show (run (step s e) es).pub.activated = _
    apply ih
    cases e with
    | activate => rfl
    | deactivate => rfl
    | tick env d o =>
      cases hp : process s env d o with
      | ok r =>
        obtain ⟨s', b⟩ := r
        have hpre := process_preserved hp
        have hstep : step s (Event.tick env d o) = s' := by simp [step, hp]
        rw [hstep, hpre.2.2.2.2.1, hpre.2.2.2.2.2, h]
      | error e =>
        have hstep : step s (Event.tick env d o) = s := by simp [step, hp]
        rw [hstep, h]

/-- The number of points of a build is always `h * w`. -/
theorem buildPoints_length (lut : GeometryLUT) (scan : RawScan) :
    (buildPoints lut scan).length = scan.h * scan.w := by
  simp only [buildPoints, List.length_flatMap, Function.comp_def,
    List.length_map, List.length_range, List.map_const', List.sum_replicate,
    smul_eq_mul]

/-- The size invariant of the reusable cloud buffer and of every message
the primary channel has received. -/
def sizeInv (s : PointcloudProcessor) : Prop :=
  s.xyz_lut.height = s.height ∧ s.xyz_lut.width = s.width ∧
  s.cloud.points.length = s.width * s.height ∧
  ∀ m ∈ s.pub.received, m.points.length = s.height * s.width

theorem sizeInv_init (mdata : SensorInfo) (frame : String) :
    sizeInv (PointcloudProcessor.init mdata frame) := by
  refine ⟨rfl, rfl, ?_, ?_⟩
  · simp [PointcloudProcessor.init, Cloud.alloc]
  · intro m hm
    simp [PointcloudProcessor.init, LifecyclePublisher.new] at hm

theorem sizeInv_process {s : PointcloudProcessor} {env : Env}
    {d : List Nat} {o : Nat} {s' : PointcloudProcessor} {b : Bool}
    (hs : sizeInv s) (h : process s env d o = .ok (s', b)) : sizeInv s' := by
  cases hr : env.isBatchReady with
  | false =>
    rw [process_not_ready hr] at h
    obtain ⟨rfl, rfl⟩ : s = s' ∧ true = b := by simpa using h
    exact hs
  | true =>
    by_cases hd : env.lidarScan.h = s.xyz_lut.height ∧
        env.lidarScan.w = s.xyz_lut.width
    · rw [process_ready hr hd.1 hd.2] at h
      obtain ⟨rfl, rfl⟩ : tickResult s env o = s' ∧ true = b := by
        simpa using h
      have hbuild : (buildCloud s.xyz_lut env.lidarScan).points.length =
          s.height * s.width := by
        rw [buildCloud, buildPoints_length, hd.1, hd.2, hs.1, hs.2.1]
      have hrecv : ∀ m ∈ (s.pub.publish (primaryMsg s env o)).received,
          m.points.length = s.height * s.width := by
        intro m hm
        rw [LifecyclePublisher.publish] at hm
        rcases List.mem_append.mp hm with hm | hm
        · exact hs.2.2.2 m hm
        · rw [List.mem_singleton.mp hm]
          simpa [primaryMsg, toMsg] using hbuild
      unfold tickResult
      cases env.lookupTransform "base_link" s.frame TfTime.zero with
      | ok tr =>
        refine ⟨hs.1, hs.2.1, ?_, ?_⟩
        · show (buildCloud s.xyz_lut env.lidarScan).points.length =
            s.width * s.height
          rw [hbuild, Nat.mul_comm]
        · exact hrecv
      | error err =>
        refine ⟨hs.1, hs.2.1, ?_, ?_⟩
        · show (buildCloud s.xyz_lut env.lidarScan).points.length =
            s.width * s.height
          rw [hbuild, Nat.mul_comm]
        · exact hrecv
    · rw [process_mismatch hr hd] at h
      exact absurd h (by simp)

theorem sizeInv_run :
    ∀ (evs : List Event) (s : PointcloudProcessor),
      sizeInv s → sizeInv (run s evs) := by
  intro evs
  induction evs with
  | nil => intro s h; exact h
  | cons e es ih =>
    intro s h
    show sizeInv (run (step s e) es)
    apply ih
    cases e with
    | activate => exact h
    | deactivate => exact h
    | tick env d o =>
      cases hp : process s env d o with
      | ok r =>
        obtain ⟨s', b⟩ := r
        have hstep : step s (Event.tick env d o) = s' := by simp [step, hp]
        rw [hstep]
        exact sizeInv_process h hp
      | error e =>
        have hstep : step s (Event.tick env d o) = s := by simp [step, hp]
        rw [hstep]
        exact h

/-- `process` and lifecycle transitions never change the grid
dimensions recorded at construction. -/
theorem run_dims :
    ∀ (evs : List Event) (s : PointcloudProcessor),
      (run s evs).width = s.width ∧ (run s evs).height = s.height := by
  intro evs
  induction evs with
  | nil => intro s; exact ⟨rfl, rfl⟩
  | cons e es ih =>
    intro s
    show (run (step s e) es).width = _ ∧ _
    have hs : (step s e).width = s.width ∧ (step s e).height = s.height := by
      cases e with
      | activate => exact ⟨rfl, rfl⟩
      | deactivate => exact ⟨rfl, rfl⟩
      | tick env d o =>
        cases hp : process s env d o with
        | ok r =>
          obtain ⟨s', b⟩ := r
          have hpre := process_preserved hp
          have hstep : step s (Event.tick env d o) = s' := by simp [step, hp]
          rw [hstep]
          exact ⟨hpre.1, hpre.2.1⟩
        | error e =>
          have hstep : step s (Event.tick env d o) = s := by simp [step, hp]
          rw [hstep]
          exact ⟨rfl, rfl⟩
    exact ⟨(ih (step s e)).1.trans hs.1, (ih (step s e)).2.trans hs.2⟩

/-! ### The crop pipeline is equivalent to filtering out the box -/

theorem le_of_mem_cropBoxIndices {mn mx : Vec3} :
    ∀ {ps : List Point} {i j : Nat}, j ∈ cropBoxIndices mn mx ps i → i ≤ j := by
  intro ps
  induction ps with
  | nil => intro i j h; simp [cropBoxIndices] at h
  | cons p ps ih =>
    intro i j h
    cases hp : insideBox mn mx p with
    | true =>
      simp only [cropBoxIndices, hp, if_true] at h
      rcases List.mem_cons.mp h with rfl | h
      · exact Nat.le_refl j
      · exact Nat.le_of_succ_le (ih h)
    | false =>
      simp only [cropBoxIndices, hp, if_false] at h
      exact Nat.le_of_succ_le (ih h)

theorem contains_eq_false_of_forall_lt {i : Nat} {idx : List Nat}
    (h : ∀ j ∈ idx, i < j) : idx.contains i = false := by
  have hm : i ∉ idx := fun hm => Nat.lt_irrefl i (h i hm)
  simpa using hm

theorem extractNegative_cons_of_lt {j : Nat} :
    ∀ (ps : List Point) (i : Nat) (idx : List Nat), j < i →
      extractNegative ps i (j :: idx) = extractNegative ps i idx := by
  intro ps
  induction ps with
  | nil => intro i idx h; rfl
  | cons p ps ih =>
    intro i idx h
    have hne : (i == j) = false := by
      simp [Nat.ne_of_gt h]
    simp only [extractNegative, List.contains_cons, hne, Bool.false_or]
    rw [ih (i + 1) idx (Nat.lt_succ_of_lt h)]

theorem extractNegative_cropBoxIndices {mn mx : Vec3} :
    ∀ (ps : List Point) (i : Nat),
      extractNegative ps i (cropBoxIndices mn mx ps i) =
        ps.filter fun p => !insideBox mn mx p := by
  intro ps
  induction ps with
  | nil => intro i; rfl
  | cons p ps ih =>
    intro i
    cases hp : insideBox mn mx p with
    | true =>
      have h1 : cropBoxIndices mn mx (p :: ps) i =
          i :: cropBoxIndices mn mx ps (i + 1) := by
        simp [cropBoxIndices, hp]
      have hc : (i :: cropBoxIndices mn mx ps (i + 1)).contains i = true := by
        simp [List.contains_cons]
      rw [h1]
      simp only [extractNegative, hc, if_true]
      rw [extractNegative_cons_of_lt ps (i + 1) _ (Nat.lt_succ_self i),
        ih (i + 1)]
      simp [List.filter_cons, hp]
    | false =>
      have h1 : cropBoxIndices mn mx (p :: ps) i =
          cropBoxIndices mn mx ps (i + 1) := by
        simp [cropBoxIndices, hp]
      have hc : (cropBoxIndices mn mx ps (i + 1)).contains i = false :=
        contains_eq_false_of_forall_lt fun j hj =>
          Nat.lt_of_succ_le (le_of_mem_cropBoxIndices hj)
      rw [h1]
      simp only [extractNegative, hc, if_false]
      rw [ih (i + 1)]
      simp [List.filter_cons, hp]

/-- The whole crop pipeline (CropBox indices + negative ExtractIndices)
keeps exactly the points outside the box, in order. -/
theorem cropBox_points (cloud : Cloud) (mn mx : Vec3) :
    (cropBox cloud mn mx).points =
      cloud.points.filter fun p => !insideBox mn mx p :=
  extractNegative_cropBoxIndices cloud.points 0

/-! ### Concrete fixtures used by witnesses and counterexamples -/

/-- A 1×1 sensor whose single beam points along the x axis. -/
def cMdata : SensorInfo :=
  { pixels_per_column := 1
    columns_per_frame := 1
    beamDir := fun _ _ => ⟨1, 0, 0⟩
    beamOffset := fun _ _ => ⟨0, 0, 0⟩ }

/-- A freshly constructed (deactivated) processor for the 1×1 sensor. -/
def cProc0 : PointcloudProcessor := PointcloudProcessor.init cMdata "laser"

/-- The same processor after `onActivate`. -/
def cProcA : PointcloudProcessor := onActivate cProc0

/-- A ready 1×1 scan with a single 5 m return. -/
def cScan : RawScan := { h := 1, w := 1, range := fun _ _ => 5 }

/-- A scan whose dimensions disagree with the 1×1 LUT. -/
def cScanBad : RawScan := { h := 2, w := 1, range := fun _ _ => 5 }

/-- A rigid transform: identity rotation, translation (1, 0, 0). -/
def cTr : Transform :=
  { r1 := ⟨1, 0, 0⟩, r2 := ⟨0, 1, 0⟩, r3 := ⟨0, 0, 1⟩, t := ⟨1, 0, 0⟩ }

/-- A ready batch whose transform lookup always succeeds. -/
def cEnvOk : Env :=
  { isBatchReady := true, lidarScan := cScan, timestamp := 5
    packetsAccumulated := 1, lookupTransform := fun _ _ _ => .ok cTr }

/-- A ready batch whose transform lookup always fails. -/
def cEnvErr : Env :=
  { isBatchReady := true, lidarScan := cScan, timestamp := 5
    packetsAccumulated := 1
    lookupTransform := fun _ _ _ => .error "no tf" }

/-- A tick on which no batch is ready. -/
def cEnvNotReady : Env :=
  { isBatchReady := false, lidarScan := cScan, timestamp := 5
    packetsAccumulated := 0
    lookupTransform := fun _ _ _ => .error "no tf" }

/-- A ready batch whose transform service knows the transform exactly at
the batch timestamp 5 but has no latest (TimePointZero) transform. -/
def cEnvExactOnly : Env :=
  { isBatchReady := true, lidarScan := cScan, timestamp := 5
    packetsAccumulated := 1
    lookupTransform := fun _ _ t =>
      if t = TfTime.atTime 5 then .ok cTr else .error "latest unavailable" }

/-- A ready batch whose scan dimensions mismatch the LUT. -/
def cEnvBad : Env :=
  { isBatchReady := true, lidarScan := cScanBad, timestamp := 5
    packetsAccumulated := 1, lookupTransform := fun _ _ _ => .ok cTr }

/-- A two-point cloud: one point at the origin, one far away. -/
def cCloud : Cloud := { width := 2, height := 1, points := [⟨0, 0, 0⟩, ⟨10, 10, 10⟩] }

/-- A cloud lying entirely inside the unit box. -/
def cCloudIn : Cloud := { width := 1, height := 1, points := [⟨0, 0, 0⟩] }

/-- A cloud lying entirely outside the unit box. -/
def cCloudOut : Cloud := { width := 1, height := 1, points := [⟨10, 10, 10⟩] }

/-- A transform service that always fails. -/
def cLookupErr : String → String → TfTime → Except String Transform :=
  fun _ _ _ => .error "no tf"

/-- A transform service that fails only at TimePointZero. -/
def cLookupZeroErr : String → String → TfTime → Except String Transform :=
  fun _ _ t => if t = TfTime.zero then .error "no tf" else .ok cTr

/-- The corner vectors of the unit box. -/
def cBoxMin : Vec3 := ⟨-1, -1, -1⟩

/-- See `cBoxMin`. -/
def cBoxMax : Vec3 := ⟨1, 1, 1⟩

/-! ### Claims -/

/-- Claim C2: `process` returns success (`true`) on every reachable path —
the only non-returning path is the fatal dimension-mismatch configuration
fault — and when the batch source is not ready it returns success
immediately with the state unchanged: no cloud is built and neither
channel receives a publish. -/
theorem c2_process_returns_success (s : PointcloudProcessor) (env : Env)
    (d : List Nat) (o : Nat) :
    (env.isBatchReady = false → process s env d o = .ok (s, true)) ∧
    (∀ s' b, process s env d o = .ok (s', b) → b = true) ∧
    (∀ e, process s env d o = .error e →
      e = ConfigFault.dimMismatch ∧
      ¬(env.lidarScan.h = s.xyz_lut.height ∧
        env.lidarScan.w = s.xyz_lut.width)) := by
  refine ⟨fun h => process_not_ready h, ?_, ?_⟩
  · intro s' b h
    cases hr : env.isBatchReady with
    | false =>
      rw [process_not_ready hr] at h
      exact ((by simpa using h : s = s' ∧ true = b).2).symm
    | true =>
      by_cases hd : env.lidarScan.h = s.xyz_lut.height ∧
          env.lidarScan.w = s.xyz_lut.width
      · rw [process_ready hr hd.1 hd.2] at h
        exact ((by simpa using h : tickResult s env o = s' ∧ true = b).2).symm
      · rw [process_mismatch hr hd] at h
        exact absurd h (by simp)
  · intro e h
    cases hr : env.isBatchReady with
    | false =>
      rw [process_not_ready hr] at h
      exact absurd h (by simp)
    | true =>
      by_cases hd : env.lidarScan.h = s.xyz_lut.height ∧
          env.lidarScan.w = s.xyz_lut.width
      · rw [process_ready hr hd.1 hd.2] at h
        exact absurd h (by simp)
      · rw [process_mismatch hr hd] at h
        exact ⟨((Except.error.injEq _ _).mp h).symm, hd⟩

/-- Witness for C2: a not-ready tick is a success no-op. -/
theorem c2_witness : process cProc0 cEnvNotReady [] 0 = .ok (cProc0, true) :=
  (c2_process_returns_success cProc0 cEnvNotReady [] 0).1 rfl

/-- Claim C6: the crop operation with exclude semantics removes exactly
the points inside the axis-aligned box `[mn, mx]` and keeps exactly the
points outside it; a box containing every point of the cloud yields an
empty result, and a box containing none of the points leaves the point
sequence unchanged. -/
theorem c6_crop_exclude (cloud : Cloud) (mn mx : Vec3) :
    (cropBox cloud mn mx).points =
      cloud.points.filter (fun p => !insideBox mn mx p) ∧
    ((∀ p ∈ cloud.points, insideBox mn mx p = true) →
      (cropBox cloud mn mx).points = []) ∧
    ((∀ p ∈ cloud.points, insideBox mn mx p = false) →
      (cropBox cloud mn mx).points = cloud.points) := by
  refine ⟨cropBox_points cloud mn mx, ?_, ?_⟩
  · intro h
    rw [cropBox_points]
    exact List.filter_eq_nil_iff.mpr fun a ha => by simp [h a ha]
  · intro h
    rw [cropBox_points]
    exact List.filter_eq_self.mpr fun a ha => by simp [h a ha]

/-- Witness for C6: a cloud inside the unit box crops to empty; a cloud
outside it passes through unchanged. -/
theorem c6_witness :
    (cropBox cCloudIn cBoxMin cBoxMax).points = [] ∧
    (cropBox cCloudOut cBoxMin cBoxMax).points = cCloudOut.points :=
  ⟨(c6_crop_exclude cCloudIn cBoxMin cBoxMax).2.1 (by decide),
   (c6_crop_exclude cCloudOut cBoxMin cBoxMax).2.2 (by decide)⟩

/-- Claim C7: the crop output is compacted and no longer organized —
height 1 and width equal to the number of kept points — and the
all-points-removed case produces the valid empty cloud (height 1,
width 0), not an error. -/
theorem c7_crop_compacted (cloud : Cloud) (mn mx : Vec3) :
    (cropBox cloud mn mx).height = 1 ∧
    (cropBox cloud mn mx).width = (cropBox cloud mn mx).points.length ∧
    ((∀ p ∈ cloud.points, insideBox mn mx p = true) →
      cropBox cloud mn mx = { width := 0, height := 1, points := [] }) := by
  refine ⟨rfl, rfl, fun h => ?_⟩
  have hpts : (cropBox cloud mn mx).points = [] := by
    rw [cropBox_points]
    exact List.filter_eq_nil_iff.mpr fun a ha => by simp [h a ha]
  have hrepr : cropBox cloud mn mx =
      { width := (cropBox cloud mn mx).points.length, height := 1
        points := (cropBox cloud mn mx).points } := rfl
  rw [hrepr, hpts]
  rfl

/-- Witness for C7: cropping away every point yields the empty cloud with
height 1 and width 0. -/
theorem c7_witness :
    cropBox cCloudIn cBoxMin cBoxMax =
      { width := 0, height := 1, points := [] } :=
  (c7_crop_compacted cCloudIn cBoxMin cBoxMax).2.2 (by decide)

/-- Claim C9: the build step fails exactly when the scan dimensions
disagree with the LUT dimensions; the failure is the fatal
ConfigurationFault, produces no output cloud, and a `process` invocation
on a mismatched ready batch surfaces it immediately (the error
propagates; nothing is published, nothing is swallowed). -/
theorem c9_dim_mismatch_fatal (lut : GeometryLUT) (ts : Nat)
    (scan : RawScan) (s : PointcloudProcessor) (env : Env) (d : List Nat)
    (o : Nat) :
    ((∃ e, toCloud lut ts scan = .error e) ↔
      ¬(scan.h = lut.height ∧ scan.w = lut.width)) ∧
    (∀ e, toCloud lut ts scan = .error e → e = ConfigFault.dimMismatch) ∧
    (env.isBatchReady = true →
      ¬(env.lidarScan.h = s.xyz_lut.height ∧
        env.lidarScan.w = s.xyz_lut.width) →
      process s env d o = .error ConfigFault.dimMismatch) := by
  refine ⟨⟨?_, ?_⟩, ?_, fun hr hd => process_mismatch hr hd⟩
  · rintro ⟨e, he⟩ hd
    rw [toCloud_ok ts hd.1 hd.2] at he
    exact absurd he (by simp)
  · intro hd
    exact ⟨.dimMismatch, toCloud_err ts hd⟩
  · intro e he
    by_cases hd : scan.h = lut.height ∧ scan.w = lut.width
    · rw [toCloud_ok ts hd.1 hd.2] at he
    · rw [toCloud_err ts hd] at he

/-- Witness for C9: a 2×1 scan against the 1×1 LUT makes `process`
propagate the dimension-mismatch fault. -/
theorem c9_witness :
    process cProcA cEnvBad [] 0 = .error ConfigFault.dimMismatch :=
  (c9_dim_mismatch_fatal cProcA.xyz_lut 5 cScanBad cProcA cEnvBad
    [] 0).2.2 rfl (by decide)

/-- Claim C10: `process` never reads its packet-data argument — two
invocations from the same state differing only in `data` behave
identically — and two environments agreeing on readiness, scan, timestamp
and transform service (so differing at most in the diagnostic packet
count) give identical results, so the published clouds depend only on the
accumulator's scan and timestamp, the override timestamp, and the
processor's own configuration. -/
theorem c10_data_noninterference (s : PointcloudProcessor)
    (env env2 : Env) (d1 d2 : List Nat) (o : Nat)
    (hready : env2.isBatchReady = env.isBatchReady)
    (hscan : env2.lidarScan = env.lidarScan)
    (hts : env2.timestamp = env.timestamp)
    (hlk : env2.lookupTransform = env.lookupTransform) :
    process s env d1 o = process s env d2 o ∧
    process s env2 d1 o = process s env d1 o := by
  constructor
  · rfl
  · obtain ⟨r, sc, ts, pk, lk⟩ := env
    obtain ⟨r2, sc2, ts2, pk2, lk2⟩ := env2
    dsimp only at hready hscan hts hlk
    subst hready; subst hscan; subst hts; subst hlk
    rfl

/-- Witness for C10: concrete runs differing only in packet data, and
environments differing only in the packet count, coincide. -/
theorem c10_witness :
    process cProcA cEnvOk [1, 2, 3] 0 = process cProcA cEnvOk [4] 0 ∧
    process cProcA { cEnvOk with packetsAccumulated := 99 } [1, 2, 3] 0 =
      process cProcA cEnvOk [1, 2, 3] 0 :=
  c10_data_noninterference cProcA cEnvOk
    { cEnvOk with packetsAccumulated := 99 } [1, 2, 3] [4] 0 rfl rfl rfl rfl

/-- Claim C1: when the batch is ready and the transform lookup fails, the
primary channel still receives exactly one publish of the sensor-frame
cloud for that batch, the secondary channel receives no publish, `process`
returns success, and the next ready batch (here one whose lookup succeeds)
is processed normally: one primary and one secondary publish. -/
theorem c1_transform_failure_isolated (s : PointcloudProcessor)
    (env env2 : Env) (d d2 : List Nat) (o o2 : Nat) (err : String)
    (tr : Transform)
    (hr : env.isBatchReady = true)
    (hh : env.lidarScan.h = s.xyz_lut.height)
    (hw : env.lidarScan.w = s.xyz_lut.width)
    (hl : env.lookupTransform "base_link" s.frame TfTime.zero = .error err)
    (hr2 : env2.isBatchReady = true)
    (hh2 : env2.lidarScan.h = s.xyz_lut.height)
    (hw2 : env2.lidarScan.w = s.xyz_lut.width)
    (hl2 : env2.lookupTransform "base_link" s.frame TfTime.zero = .ok tr) :
    process s env d o = .ok (afterPrimary s env o, true) ∧
    (afterPrimary s env o).pub.received =
      s.pub.received ++ [primaryMsg s env o] ∧
    (primaryMsg s env o).frame = s.frame ∧
    (afterPrimary s env o).pub_base_link.received =
      s.pub_base_link.received ∧
    process (afterPrimary s env o) env2 d2 o2 =
      .ok (afterSecondary (afterPrimary s env o) env2 o2 tr, true) ∧
    (afterSecondary (afterPrimary s env o) env2 o2 tr).pub.received =
      (afterPrimary s env o).pub.received ++
        [primaryMsg (afterPrimary s env o) env2 o2] ∧
    (afterSecondary (afterPrimary s env o) env2 o2 tr).pub_base_link.received
      = (afterPrimary s env o).pub_base_link.received ++
        [transformPointCloud "base_link" tr
          (primaryMsg (afterPrimary s env o) env2 o2)] :=
  ⟨process_ready_err hr hh hw hl, rfl, rfl, rfl,
   process_ready_ok hr2 hh2 hw2 hl2, rfl, rfl⟩

/-- Witness for C1: after a failed lookup the primary channel holds the
one sensor-frame message and the secondary none; the following good batch
is processed normally. -/
theorem c1_witness :
    process cProcA cEnvErr [] 0 = .ok (afterPrimary cProcA cEnvErr 0, true) ∧
    (afterPrimary cProcA cEnvErr 0).pub.received =
      [primaryMsg cProcA cEnvErr 0] ∧
    (afterPrimary cProcA cEnvErr 0).pub_base_link.received = [] ∧
    process (afterPrimary cProcA cEnvErr 0) cEnvOk [] 0 =
      .ok (afterSecondary (afterPrimary cProcA cEnvErr 0) cEnvOk 0 cTr,
        true) := by
  have h := c1_transform_failure_isolated cProcA cEnvErr cEnvOk [] [] 0 0
    "no tf" cTr rfl rfl rfl rfl rfl rfl rfl rfl
  exact ⟨h.1, h.2.1, h.2.2.2.1, h.2.2.2.2.1⟩

/-- Claim C3 does not hold of the code: the transform lookup feeding the
secondary publish is requested at `tf2::TimePointZero` (the latest
available transform), never at the batch's timestamp, and tf2's
`lookupTransform` does support exact-time lookup. Counterexample: a
transform service that resolves the transform exactly at the batch
timestamp 5 but has no latest transform — per the claim the relay
succeeds and the secondary channel receives the batch, but `process`
performs no secondary publish at all (the primary one still happens and
the call succeeds). -/
theorem c3_counterexample :
    cEnvExactOnly.timestamp = 5 ∧
    cEnvExactOnly.lookupTransform "base_link" cProcA.frame
      (TfTime.atTime 5) = .ok cTr ∧
    process cProcA cEnvExactOnly [] 0 =
      .ok (afterPrimary cProcA cEnvExactOnly 0, true) ∧
    (afterPrimary cProcA cEnvExactOnly 0).pub_base_link.received = [] ∧
    (afterPrimary cProcA cEnvExactOnly 0).pub.received =
      [primaryMsg cProcA cEnvExactOnly 0] :=
  ⟨rfl, rfl,
   @process_ready_err cProcA cEnvExactOnly [] 0 "latest unavailable"
     rfl rfl rfl rfl,
   rfl, rfl⟩

/-- Claim C3 (amended): for every ready batch the transform lookup used
for the secondary publish is requested at `tf2::TimePointZero` — the
latest available transform — irrespective of the batch timestamp: the
outcome of `process` depends on the transform service only through its
value at ("base_link", sensor frame, TimePointZero), and the secondary
channel receives a publish iff that latest-time lookup succeeds. -/
theorem c3_lookup_at_latest (s : PointcloudProcessor) (env : Env)
    (f g : String → String → TfTime → Except String Transform)
    (d : List Nat) (o : Nat)
    (hfg : f "base_link" s.frame TfTime.zero =
      g "base_link" s.frame TfTime.zero)
    (hr : env.isBatchReady = true)
    (hh : env.lidarScan.h = s.xyz_lut.height)
    (hw : env.lidarScan.w = s.xyz_lut.width) :
    process s { env with lookupTransform := f } d o =
      process s { env with lookupTransform := g } d o ∧
    ((tickResult s env o).pub_base_link.received.length =
        s.pub_base_link.received.length + 1 ↔
      (env.lookupTransform "base_link" s.frame TfTime.zero).isOk = true) ∧
    process s env d o = .ok (tickResult s env o, true) := by
  refine ⟨?_, ?_, process_ready hr hh hw⟩
  · rw [@process_ready s { env with lookupTransform := f } d o hr hh hw,
      @process_ready s { env with lookupTransform := g } d o hr hh hw]
    unfold tickResult
    rw [show ({ env with lookupTransform := f } : Env).lookupTransform = f
        from rfl,
      show ({ env with lookupTransform := g } : Env).lookupTransform = g
        from rfl,
      hfg]
    cases g "base_link" s.frame TfTime.zero <;> rfl
  · unfold tickResult
    cases hl : env.lookupTransform "base_link" s.frame TfTime.zero with
    | ok tr =>
      apply iff_of_true
      · simp [afterSecondary, afterPrimary, LifecyclePublisher.publish]
      · rfl
    | error e =>
      apply iff_of_false
      · show (afterPrimary s env o).pub_base_link.received.length = _ → False
        exact fun hlen => Nat.succ_ne_self _ hlen.symm
      · simp [Except.isOk, Except.toBool]

/-- Witness for the amended C3: two services that agree at TimePointZero
but disagree at the batch timestamp produce identical outcomes, and a
ready batch with an always-succeeding service gets its secondary publish. -/
theorem c3_witness :
    process cProcA { cEnvOk with lookupTransform := cLookupErr } [] 0 =
      process cProcA { cEnvOk with lookupTransform := cLookupZeroErr } [] 0 ∧
    process cProcA cEnvOk [] 0 = .ok (tickResult cProcA cEnvOk 0, true) := by
  have h := c3_lookup_at_latest cProcA cEnvOk cLookupErr cLookupZeroErr
    [] 0 rfl rfl rfl rfl
  exact ⟨h.1, h.2.2⟩

/-- Claim C5: `onActivate` moves both output channels to active,
`onDeactivate` moves both to inactive, and every state reachable from
construction under any event sequence has the two channels in the same
activation state — no partial activation. -/
theorem c5_channels_move_together (s : PointcloudProcessor)
    (mdata : SensorInfo) (frame : String) (evs : List Event) :
    (onActivate s).pub.activated = true ∧
    (onActivate s).pub_base_link.activated = true ∧
    (onDeactivate s).pub.activated = false ∧
    (onDeactivate s).pub_base_link.activated = false ∧
    (run (PointcloudProcessor.init mdata frame) evs).pub.activated =
      (run (PointcloudProcessor.init mdata frame)
        evs).pub_base_link.activated :=
  ⟨rfl, rfl, rfl, rfl, run_activated_eq evs _ rfl⟩

/-- Claim C4: while the lifecycle gate is inactive, zero messages are
emitted on either channel no matter how many ready batches are processed;
after `onActivate`, the next ready batch emits exactly one primary
message, and a secondary message iff the transform lookup succeeds; and a
publish attempt while inactive is a silent no-op — the call is received
and dropped, not an error. -/
theorem c4_lifecycle_gate (s : PointcloudProcessor)
    (ticks : List (Env × List Nat × Nat)) (env : Env) (d : List Nat)
    (o : Nat) (pub : LifecyclePublisher) (m : Msg)
    (hin1 : s.pub.activated = false)
    (hin2 : s.pub_base_link.activated = false)
    (hr : env.isBatchReady = true)
    (hh : env.lidarScan.h = s.xyz_lut.height)
    (hw : env.lidarScan.w = s.xyz_lut.width)
    (hpub : pub.activated = false) :
    (run s (ticks.map tickEvent)).pub.emitted = s.pub.emitted ∧
    (run s (ticks.map tickEvent)).pub_base_link.emitted =
      s.pub_base_link.emitted ∧
    process (onActivate s) env d o =
      .ok (tickResult (onActivate s) env o, true) ∧
    (tickResult (onActivate s) env o).pub.emitted =
      s.pub.emitted ++ [primaryMsg (onActivate s) env o] ∧
    ((tickResult (onActivate s) env o).pub_base_link.emitted.length =
        s.pub_base_link.emitted.length + 1 ↔
      (env.lookupTransform "base_link" s.frame TfTime.zero).isOk = true) ∧
    (pub.publish m).emitted = pub.emitted ∧
    (pub.publish m).received = pub.received ++ [m] := by
  have hrun := runTicks_emitted_of_inactive ticks s hin1 hin2
  have hfr : (onActivate s).frame = s.frame := rfl
  refine ⟨hrun.1, hrun.2, process_ready hr hh hw, ?_, ?_,
    by simp [LifecyclePublisher.publish, hpub], rfl⟩
  · unfold tickResult
    rw [hfr]
    cases env.lookupTransform "base_link" s.frame TfTime.zero with
    | ok tr => rfl
    | error e => rfl
  · unfold tickResult
    rw [hfr]
    cases env.lookupTransform "base_link" s.frame TfTime.zero with
    | ok tr =>
      apply iff_of_true
      · show (s.pub_base_link.emitted ++ [_]).length = _
        simp
      · rfl
    | error e =>
      apply iff_of_false
      · show s.pub_base_link.emitted.length = _ → False
        exact fun hlen => Nat.succ_ne_self _ hlen.symm
      · simp [Except.isOk, Except.toBool]

/-- Witness for C4: two ready ticks on a deactivated processor emit
nothing; after activation a ready batch emits its primary message; a
publish on a deactivated publisher is received but not emitted. -/
theorem c4_witness :
    (run cProc0 ([(cEnvOk, ([] : List Nat), 0),
      (cEnvErr, [], 0)].map tickEvent)).pub.emitted = [] ∧
    (run cProc0 ([(cEnvOk, ([] : List Nat), 0),
      (cEnvErr, [], 0)].map tickEvent)).pub_base_link.emitted = [] ∧
    (tickResult (onActivate cProc0) cEnvOk 0).pub.emitted =
      [primaryMsg (onActivate cProc0) cEnvOk 0] ∧
    (LifecyclePublisher.new.publish (primaryMsg cProcA cEnvOk 0)).emitted =
      [] ∧
    (LifecyclePublisher.new.publish (primaryMsg cProcA cEnvOk 0)).received =
      [primaryMsg cProcA cEnvOk 0] := by
  have h := c4_lifecycle_gate cProc0 [(cEnvOk, [], 0), (cEnvErr, [], 0)]
    cEnvOk [] 0 LifecyclePublisher.new (primaryMsg cProcA cEnvOk 0)
    rfl rfl rfl rfl rfl rfl
  exact ⟨h.1, h.2.1, h.2.2.2.1, h.2.2.2.2.2.1, h.2.2.2.2.2.2⟩

/-- Claim C8: the destination cloud buffer is allocated at construction
with `width * height` points; its size, and the recorded grid dimensions,
are preserved across every event (in particular every `process`
invocation reuses the buffer at the same size), and every message the
primary channel has ever received carries `height * width` points. -/
theorem c8_buffer_stable (mdata : SensorInfo) (frame : String)
    (evs : List Event) :
    (PointcloudProcessor.init mdata frame).cloud.points.length =
      mdata.columns_per_frame * mdata.pixels_per_column ∧
    (run (PointcloudProcessor.init mdata frame) evs).width =
      mdata.columns_per_frame ∧
    (run (PointcloudProcessor.init mdata frame) evs).height =
      mdata.pixels_per_column ∧
    (run (PointcloudProcessor.init mdata frame) evs).cloud.points.length =
      mdata.columns_per_frame * mdata.pixels_per_column ∧
    ((run (PointcloudProcessor.init mdata frame) evs).pub.received.all
      fun m => m.points.length ==
        mdata.pixels_per_column * mdata.columns_per_frame) = true := by
  have hrun := sizeInv_run evs _ (sizeInv_init mdata frame)
  have hdims := run_dims evs (PointcloudProcessor.init mdata frame)
  refine ⟨by simp [PointcloudProcessor.init, Cloud.alloc], hdims.1, hdims.2,
    ?_, ?_⟩
  · rw [hrun.2.2.1, hdims.1, hdims.2]
    rfl
  · rw [List.all_eq_true]
    intro m hm
    have hlen := hrun.2.2.2 m hm
    rw [hdims.1, hdims.2] at hlen
    exact beq_iff_eq.mpr hlen

end RosOuster
